import Mathlib

/-!
Verification of the Reinforcement Signal Optimizer frontend core against its
natural-language specification.  The definitions below are shallow embeddings
of the TypeScript sources (`frontend/src/services/socket.ts`,
`frontend/src/services/dualSocket.ts`, `frontend/src/services/api.ts`,
`frontend/src/pages/Dashboard.tsx`, `frontend/src/pages/DualComparison.tsx`,
`frontend/src/pages/JunctionSelection.tsx`).  JavaScript numbers are modelled
as `ℚ` (for simulated times and averages) and `ℤ` (for vehicle counts);
fallible or stateful code is modelled by explicit state passing.  Components
of the dual-simulation backend that are not part of the frontend sources
(ComparisonEngine, DualController) are modelled from the specification and
carry a doc comment saying so.
-/

namespace RSO

/-! ## Data model

`SimulationMetrics` is the single-run message type of `socket.ts`;
`DualSimulationMetrics` is the dual-run message type of `dualSocket.ts`. -/

/-- One entry of the `traffic_lights` record: a phase index and a state
string, as declared in `socket.ts` / `dualSocket.ts`. -/
structure TrafficLight where
  phase : ℤ
  state : String
deriving DecidableEq

/-- The message type streamed over `/ws` (interface `SimulationMetrics` in
`socket.ts`). -/
structure SimulationMetrics where
  time : ℚ
  queue_length : ℤ
  waiting_time : ℚ
  total_waiting_time : ℚ
  vehicle_count : ℤ
  departed_vehicles : ℤ
  arrived_vehicles : ℤ
  traffic_lights : List (String × TrafficLight)
  timestamp : ℚ
deriving DecidableEq

/-- Per-session block of a dual message (the `fixed` / `rl` fields of
interface `DualSimulationMetrics` in `dualSocket.ts`). -/
structure SessionMetrics where
  time : ℚ
  queue_length : ℤ
  waiting_time : ℚ
  total_waiting_time : ℚ
  vehicle_count : ℤ
  departed_vehicles : ℤ
  arrived_vehicles : ℤ
  traffic_lights : List (String × TrafficLight)
deriving DecidableEq

/-- The `comparison` block of a dual message: adaptive − fixed differentials
(`dualSocket.ts`, comments: negative wait/queue means RL better, positive
throughput means RL better). -/
structure Comparison where
  wait_time_diff : ℚ
  queue_diff : ℤ
  throughput_diff : ℤ
deriving DecidableEq

/-- The message type streamed over `/ws/dual` (interface
`DualSimulationMetrics` in `dualSocket.ts`). -/
structure DualSimulationMetrics where
  fixed : SessionMetrics
  rl : SessionMetrics
  step : ℕ
  comparison : Comparison
deriving DecidableEq

/-! ## ComparisonEngine (spec-modelled) -/

/-- Modelled from the spec: the ComparisonEngine (spec section 4.5) lives in the
backend, which is not under the provided sources; only its output type
(`DualSimulationMetrics.comparison`) and its consumers are.  Per the spec it is
a pure function over two Snapshots computing adaptive − fixed differentials,
with a division-by-zero guard: if `fixed` has zero active vehicles, diffs
involving averages (the average-waiting-time diff) default to 0. -/
def compare (fixed rl : SessionMetrics) : Comparison :=
  { wait_time_diff := if fixed.vehicle_count = 0 then 0
                      else rl.waiting_time - fixed.waiting_time
    queue_diff := rl.queue_length - fixed.queue_length
    throughput_diff := rl.arrived_vehicles - fixed.arrived_vehicles }

/-! ## DualComparison page: comparison summary cards

From `DualComparison.tsx`: the three `ComparisonCard` elements rendered in the
comparison summary grid.  The `improvement` prop is the highlighted
green/red judgement; numeric string formatting (`toFixed`/`toString`) is
presentation and is elided, the underlying number is kept. -/

/-- Props of one `ComparisonCard` (`DualComparison.tsx`). -/
structure ComparisonCardProps where
  title : String
  value : ℚ
  unit : String
  improvement : Bool
deriving DecidableEq

/-- The wait-time card: `improvement={currentMetrics.comparison.wait_time_diff < 0}`. -/
def waitTimeCard (m : DualSimulationMetrics) : ComparisonCardProps :=
  { title := "Wait Time Difference"
    value := m.comparison.wait_time_diff
    unit := "seconds"
    improvement := decide (m.comparison.wait_time_diff < 0) }

/-- The queue card: `improvement={currentMetrics.comparison.queue_diff < 0}`. -/
def queueLengthCard (m : DualSimulationMetrics) : ComparisonCardProps :=
  { title := "Queue Length Difference"
    value := (m.comparison.queue_diff : ℚ)
    unit := "vehicles"
    improvement := decide (m.comparison.queue_diff < 0) }

/-- The throughput card: `improvement={currentMetrics.comparison.throughput_diff > 0}`. -/
def throughputCard (m : DualSimulationMetrics) : ComparisonCardProps :=
  { title := "Throughput Difference"
    value := (m.comparison.throughput_diff : ℚ)
    unit := "vehicles"
    improvement := decide (0 < m.comparison.throughput_diff) }

/-- The comparison summary grid of `DualComparison.tsx`, in render order. -/
def comparisonSummaryCards (m : DualSimulationMetrics) : List ComparisonCardProps :=
  [waitTimeCard m, queueLengthCard m, throughputCard m]

/-! ## The `avg` helper

From `JunctionSelection.tsx` (and the identical helper in the comparison
page): `avg(key)` returns 0 on an empty data list and otherwise the mean of
`item[key] || 0` over the list.  A data item is modelled as a partial map
from keys to numbers; `item[key] || 0` is `(item key).getD 0`
(the `toFixed(1)` formatting of the nonempty branch is presentation). -/
def avg (data : List (String → Option ℚ)) (key : String) : ℚ :=
  if data.length = 0 then 0
  else (data.map (fun item => (item key).getD 0)).sum / (data.length : ℚ)

/-! ## REST command construction (`api.ts`)

Each exported API function builds one POST request; the request is modelled
by its path and JSON body. -/

/-- Primitive JSON values appearing in the request bodies built in `api.ts`. -/
inductive JsonPrim where
  | str : String → JsonPrim
  | num : ℚ → JsonPrim
  | jbool : Bool → JsonPrim
deriving DecidableEq

/-- A JSON value in a request body: a primitive or one nested object (the
bodies built in `api.ts` nest at most one level, for `time_window`). -/
inductive Json where
  | prim : JsonPrim → Json
  | obj : List (String × JsonPrim) → Json
deriving DecidableEq

/-- Shorthand for a string field value. -/
def Json.str (s : String) : Json := Json.prim (JsonPrim.str s)

/-- Shorthand for a numeric field value. -/
def Json.num (q : ℚ) : Json := Json.prim (JsonPrim.num q)

/-- Shorthand for a boolean field value. -/
def Json.jbool (b : Bool) : Json := Json.prim (JsonPrim.jbool b)

/-- A request produced by the API client: target path and optional object
body (a list of fields in source order). -/
structure ApiRequest where
  path : String
  body : Option (List (String × Json))
deriving DecidableEq

/-- The top-level field names of a request body (empty when there is no
body). -/
def requestBodyKeys (r : ApiRequest) : List String :=
  match r.body with
  | some kvs => kvs.map (fun kv => kv.1)
  | none => []

/-- The `TimeWindow` interface of `api.ts`. -/
structure TimeWindow where
  start_hour : ℤ
  start_minute : ℤ
  end_hour : ℤ
  end_minute : ℤ
deriving DecidableEq

/-- JSON serialization of a `TimeWindow` (field-for-field object). -/
def timeWindowJson (tw : TimeWindow) : Json :=
  Json.obj [("start_hour", JsonPrim.num tw.start_hour),
            ("start_minute", JsonPrim.num tw.start_minute),
            ("end_hour", JsonPrim.num tw.end_hour),
            ("end_minute", JsonPrim.num tw.end_minute)]

/-- `startDualSimulation(location, timeWindow, useGui = true, seed = 42)`
posts `{location, time_window, use_gui, seed}` to `/api/dual/start`. -/
def startDualSimulation (location : String) (timeWindow : TimeWindow)
    (useGui : Bool := true) (seed : ℚ := 42) : ApiRequest :=
  { path := "/api/dual/start"
    body := some
      [("location", Json.str location),
       ("time_window", timeWindowJson timeWindow),
       ("use_gui", Json.jbool useGui),
       ("seed", Json.num seed)] }

/-- `stopDualSimulation()` posts to `/api/dual/stop` with no body. -/
def stopDualSimulation : ApiRequest :=
  { path := "/api/dual/stop", body := none }

/-- `injectDualEmergency(vehicleType = 'ambulance')` posts
`{vehicle_type, route: 'emergency_route'}` to `/api/dual/emergency`. -/
def injectDualEmergency (vehicleType : String := "ambulance") : ApiRequest :=
  { path := "/api/dual/emergency"
    body := some
      [("vehicle_type", Json.str vehicleType),
       ("route", Json.str "emergency_route")] }

/-- `applyDualWeather(condition)` posts `{condition}` to `/api/dual/weather`. -/
def applyDualWeather (condition : String) : ApiRequest :=
  { path := "/api/dual/weather"
    body := some [("condition", Json.str condition)] }

/-! ## Bounded per-observer snapshot buffers

Three buffer-update sites keep a rolling window of received snapshots:
`Dashboard.tsx` (localStorage history, `push` then `shift` past 100 entries),
`JunctionSelection.tsx` (live comparison chart, `push` then `shift` past 50),
and the control-dashboard chart (`slice(-maxDataPoints)`, 100 entries). -/

/-- The `push`-then-`shift`-when-over-capacity update shared by
`Dashboard.tsx` (`if (history.length > 100) history.shift()`) and
`JunctionSelection.tsx` (`if (newData.length > 50) newData.shift()`). -/
def boundedAppend {α : Type} (cap : ℕ) (buf : List α) (x : α) : List α :=
  let h := buf ++ [x]
  if cap < h.length then h.tail else h

/-- `slice(-cap)`: keep the last `cap` entries of a list. -/
def sliceLast {α : Type} (cap : ℕ) (l : List α) : List α :=
  l.drop (l.length - cap)

/-- One point of the localStorage history written by `Dashboard.tsx`. -/
structure HistoryPoint where
  time : ℚ
  queue : ℤ
  wait : ℚ
  vehicles : ℤ
deriving DecidableEq

/-- The history point built from incoming metrics (`Dashboard.tsx`). -/
def toHistoryPoint (m : SimulationMetrics) : HistoryPoint :=
  { time := m.time, queue := m.queue_length,
    wait := m.waiting_time, vehicles := m.vehicle_count }

/-- `Dashboard.tsx` subscribe handler: push the new point onto the stored
history and drop the oldest entry past 100 points. -/
def pushHistory (history : List HistoryPoint) (m : SimulationMetrics) : List HistoryPoint :=
  boundedAppend 100 history (toHistoryPoint m)

/-- One point of the live comparison chart of `JunctionSelection.tsx`
(carries the dynamic baseline column). -/
structure ChartPoint where
  time : ℚ
  wait : ℚ
  queue : ℤ
  vehicles : ℤ
  baseline : ℚ
deriving DecidableEq

/-- The chart point built from incoming metrics (`JunctionSelection.tsx`). -/
def toChartPoint (baselineValue : ℚ) (m : SimulationMetrics) : ChartPoint :=
  { time := m.time, wait := m.waiting_time, queue := m.queue_length,
    vehicles := m.vehicle_count, baseline := baselineValue }

/-- `JunctionSelection.tsx` subscribe handler: append the new point and keep
the chart moving at a maximum of 50 points. -/
def pushChart (prevData : List ChartPoint) (baselineValue : ℚ)
    (m : SimulationMetrics) : List ChartPoint :=
  boundedAppend 50 prevData (toChartPoint baselineValue m)

/-- One point of the control-dashboard chart (interface `ChartData`). -/
structure ChartData where
  time : ℤ
  queue_length : ℤ
  waiting_time : ℚ
  vehicle_count : ℤ
deriving DecidableEq

/-- `maxDataPoints` of the control dashboard: keep last 100 data points. -/
def maxDataPoints : ℕ := 100

/-- The chart-data point built from incoming metrics (`Math.round(time)` and
wait time rounded to two decimals). -/
def toChartData (m : SimulationMetrics) : ChartData :=
  { time := round m.time, queue_length := m.queue_length,
    waiting_time := (round (m.waiting_time * 100) : ℚ) / 100,
    vehicle_count := m.vehicle_count }

/-- Control-dashboard subscribe handler: append then `slice(-maxDataPoints)`. -/
def pushChartData (prev : List ChartData) (m : SimulationMetrics) : List ChartData :=
  sliceLast maxDataPoints (prev ++ [toChartData m])

/-! ## WebSocket handler registry (`socket.ts` / `dualSocket.ts`)

`subscribe(handler)` adds the handler to the `Set` of message handlers and
returns a closure deleting it again; `onmessage` calls every handler in the
set.  Handlers are identified by reference, modelled as natural numbers; the
JS `Set` is a `Finset`. -/

/-- The handler registry of a WebSocket service. -/
structure WsHandlers where
  messageHandlers : Finset ℕ
deriving DecidableEq

/-- `subscribe(handler)`: add the handler and return the unsubscribe
closure (`() => this.messageHandlers.delete(handler)`). -/
def subscribe (s : WsHandlers) (handler : ℕ) : WsHandlers × (WsHandlers → WsHandlers) :=
  ({ messageHandlers := insert handler s.messageHandlers },
   fun s' => { messageHandlers := s'.messageHandlers.erase handler })

/-- The set of handlers that receive a published message
(`onmessage`: `this.messageHandlers.forEach((handler) => handler(data))`). -/
def publishRecipients (s : WsHandlers) : Finset ℕ :=
  s.messageHandlers

/-! ## Dashboard mode switching (`Dashboard.tsx`)

The dashboard holds `isRunning`/`currentMode` state; `handleSwitchMode`
toggles the mode and, when a run is active, stops it and sends the user back
to the junction-selection page to start afresh.  Side effects (API calls,
WebSocket teardown, alert, navigation) are recorded as an action list. -/

/-- Controller mode: fixed-timer or RL agent. -/
inductive Mode where
  | fixedTime
  | rl
deriving DecidableEq

/-- `currentMode === 'fixed' ? 'rl' : 'fixed'`. -/
def toggleMode : Mode → Mode
  | Mode.fixedTime => Mode.rl
  | Mode.rl => Mode.fixedTime

/-- Externally visible side effects of the dashboard handlers. -/
inductive FrontendAction where
  | apiStopSimulation
  | wsDisconnect
  | alertModeSwitched (m : Mode)
  | navigateTo (path : String)
  | apiStartSimulation (m : Mode)
deriving DecidableEq

/-- Dashboard component state (`Dashboard.tsx`). -/
structure DashboardState where
  isRunning : Bool
  currentMode : Mode
  loading : Bool
deriving DecidableEq

/-- `handleStop`: call `stopSimulation()`, clear `isRunning`, disconnect the
WebSocket. -/
def handleStop (s : DashboardState) : DashboardState × List FrontendAction :=
  ({ s with isRunning := false, loading := false },
   [FrontendAction.apiStopSimulation, FrontendAction.wsDisconnect])

/-- `handleSwitchMode`: toggle the mode; if running, stop the simulation,
alert that a restart is needed, and navigate to `/junctions`. -/
def handleSwitchMode (s : DashboardState) : DashboardState × List FrontendAction :=
  let newMode := toggleMode s.currentMode
  let s' := { s with currentMode := newMode }
  if s.isRunning then
    let stopped := handleStop s'
    (stopped.1, stopped.2 ++ [FrontendAction.alertModeSwitched newMode,
                              FrontendAction.navigateTo "/junctions"])
  else
    (s', [])

/-- The mode-selection buttons of the control dashboard carry
`disabled={isRunning}`. -/
def modeButtonDisabled (isRunning : Bool) : Bool :=
  isRunning

/-! ## WebSocketService connection state machine (`socket.ts`)

The service owns at most one browser socket (`ws`), a reconnection counter,
and the `shouldStayConnected` flag.  `attemptReconnect` schedules delayed
retries with `setTimeout`; a scheduled retry is recorded as a pending-retry
kind, and timer firing is a separate event.  `socketsCreated` counts
`new WebSocket(WS_URL)` constructions, so "the service never initiates a new
connection" is "`socketsCreated` does not grow". -/

/-- readyState of the browser socket owned by the service. -/
inductive ReadyState where
  | connecting
  | opened
  | closedSock
deriving DecidableEq

/-- The two retry timers scheduled by `attemptReconnect`: the 2-second
per-attempt retry and the 10-second reset-and-retry used once the attempt
limit is reached. -/
inductive RetryKind where
  | delayRetry
  | resetRetry
deriving DecidableEq

/-- Mutable fields of `WebSocketService` (`socket.ts`), plus the bookkeeping
fields `pendingRetries` (timers scheduled but not yet fired) and
`socketsCreated` (number of sockets constructed so far). -/
structure WebSocketServiceState where
  ws : Option ReadyState
  reconnectAttempts : ℕ
  isConnecting : Bool
  shouldStayConnected : Bool
  heartbeat : Bool
  pendingRetries : List RetryKind
  socketsCreated : ℕ
deriving DecidableEq

/-- `maxReconnectAttempts = 10`. -/
def maxReconnectAttempts : ℕ := 10

/-- `connect()`: enable reconnection, reset the attempt counter, and create a
new socket unless one is already open or a connection is in progress. -/
def connect (s : WebSocketServiceState) : WebSocketServiceState :=
  let s := { s with shouldStayConnected := true, reconnectAttempts := 0 }
  if s.ws = some ReadyState.opened then s
  else if s.isConnecting then s
  else { s with isConnecting := true,
                ws := some ReadyState.connecting,
                socketsCreated := s.socketsCreated + 1 }

/-- `disconnect()`: disable reconnection, stop the heartbeat and close and
null out the socket if present, reset the attempt counter. -/
def disconnect (s : WebSocketServiceState) : WebSocketServiceState :=
  { s with shouldStayConnected := false,
           heartbeat := false,
           ws := none,
           reconnectAttempts := 0,
           isConnecting := false }

/-- `attemptReconnect()`: bail out when reconnection is disabled; past the
attempt limit, schedule the 10-second reset-and-retry without touching the
counter; otherwise increment the counter and schedule the 2-second retry. -/
def attemptReconnect (s : WebSocketServiceState) : WebSocketServiceState :=
  if s.shouldStayConnected = false then s
  else if maxReconnectAttempts ≤ s.reconnectAttempts then
    { s with pendingRetries := s.pendingRetries ++ [RetryKind.resetRetry] }
  else
    { s with reconnectAttempts := s.reconnectAttempts + 1,
             pendingRetries := s.pendingRetries ++ [RetryKind.delayRetry] }

/-- `onopen` handler: clear `isConnecting`, reset the attempt counter, start
the heartbeat; the owned socket (if still owned) becomes open. -/
def onopen (s : WebSocketServiceState) : WebSocketServiceState :=
  { s with isConnecting := false,
           reconnectAttempts := 0,
           heartbeat := true,
           ws := s.ws.map (fun _ => ReadyState.opened) }

/-- `onerror` handler: clear `isConnecting`. -/
def onerror (s : WebSocketServiceState) : WebSocketServiceState :=
  { s with isConnecting := false }

/-- `onclose` handler: clear `isConnecting`, stop the heartbeat, and attempt
to reconnect only while `shouldStayConnected` holds. -/
def onclose (s : WebSocketServiceState) : WebSocketServiceState :=
  let s' := { s with isConnecting := false,
                     heartbeat := false,
                     ws := s.ws.map (fun _ => ReadyState.closedSock) }
  if s'.shouldStayConnected then attemptReconnect s' else s'

/-- A scheduled retry timer fires.  Both timer bodies in `socket.ts` check
`shouldStayConnected` before doing anything; the 10-second body additionally
resets the attempt counter before calling `connect()`. -/
def fireRetry (k : RetryKind) (s : WebSocketServiceState) : WebSocketServiceState :=
  match k with
  | RetryKind.delayRetry =>
      if s.shouldStayConnected then connect s else s
  | RetryKind.resetRetry =>
      if s.shouldStayConnected then connect { s with reconnectAttempts := 0 } else s

/-- `isConnected()`: `this.ws?.readyState === WebSocket.OPEN`. -/
def isConnected (s : WebSocketServiceState) : Bool :=
  decide (s.ws = some ReadyState.opened)

/-- External events driving the service: the public calls, the socket
callbacks, and retry-timer firings. -/
inductive WsEvent where
  | connectCall
  | disconnectCall
  | sockOpen
  | sockError
  | sockClose
  | timerFires (k : RetryKind)
deriving DecidableEq

/-- One step of the service under an external event. -/
def stepWs (s : WebSocketServiceState) (e : WsEvent) : WebSocketServiceState :=
  match e with
  | WsEvent.connectCall => connect s
  | WsEvent.disconnectCall => disconnect s
  | WsEvent.sockOpen => onopen s
  | WsEvent.sockError => onerror s
  | WsEvent.sockClose => onclose s
  | WsEvent.timerFires k => fireRetry k s

/-! ## DualController lockstep loop (spec-modelled) -/

/-- Modelled from the spec: the DualController (spec section 4.4) lives in the
backend, which is not under the provided sources; only its output message
type (`DualSimulationMetrics`) and its frontend consumer are under src.  Per
the spec, `tick()` steps both sessions by one simulated second, reads both
snapshots, asks the ComparisonEngine for a comparison, and assembles a merged
snapshot tagged with a monotonically increasing tick index.  Stepping a
session advances its simulated time by one second; the rest of the read-back
state is an arbitrary engine response, abstracted as `engine`. -/
def stepSession (engine : SessionMetrics → SessionMetrics)
    (m : SessionMetrics) : SessionMetrics :=
  { engine m with time := m.time + 1 }

/-- Modelled from the spec: the state owned by one DualController — the two
sessions, the tick index, and the stream of merged snapshots published so
far. -/
structure DualControllerState where
  fixedSession : SessionMetrics
  rlSession : SessionMetrics
  tickIndex : ℕ
  published : List DualSimulationMetrics
deriving DecidableEq

/-- Modelled from the spec: one `tick()` of the DualController — advance both
sessions by one simulated second, read both snapshots, derive the comparison,
and publish the merged snapshot with the next tick index.  A snapshot is only
ever assembled here, after both sessions advanced. -/
def tick (engineFixed engineRL : SessionMetrics → SessionMetrics)
    (s : DualControllerState) : DualControllerState :=
  let f := stepSession engineFixed s.fixedSession
  let r := stepSession engineRL s.rlSession
  let snap : DualSimulationMetrics :=
    { fixed := f, rl := r, step := s.tickIndex + 1, comparison := compare f r }
  { fixedSession := f, rlSession := r,
    tickIndex := s.tickIndex + 1,
    published := s.published ++ [snap] }

/-- Modelled from the spec: `Running` is entered with both fresh sessions and
nothing published. -/
def initialDual (f0 r0 : SessionMetrics) : DualControllerState :=
  { fixedSession := f0, rlSession := r0, tickIndex := 0, published := [] }

/-- Run `n` ticks of the lockstep loop. -/
def runTicks (engineFixed engineRL : SessionMetrics → SessionMetrics)
    (s0 : DualControllerState) : ℕ → DualControllerState
  | 0 => s0
  | n + 1 => tick engineFixed engineRL (runTicks engineFixed engineRL s0 n)

/-! ## Sample values (used to evaluate the development on concrete inputs) -/

/-- A quiescent session snapshot (all counters zero). -/
def sampleSession : SessionMetrics :=
  { time := 0, queue_length := 0, waiting_time := 0, total_waiting_time := 0,
    vehicle_count := 0, departed_vehicles := 0, arrived_vehicles := 0,
    traffic_lights := [] }

/-- A busy session snapshot (nonzero vehicles and waiting time). -/
def busySession : SessionMetrics :=
  { time := 0, queue_length := 4, waiting_time := 9, total_waiting_time := 27,
    vehicle_count := 3, departed_vehicles := 5, arrived_vehicles := 2,
    traffic_lights := [("J1", { phase := 1, state := "GrYr" })] }

/-- A concrete dual message with an RL-favourable comparison block. -/
def sampleDualMetrics : DualSimulationMetrics :=
  { fixed := busySession, rl := sampleSession, step := 7,
    comparison := compare busySession sampleSession }

/-- A concrete service state sitting at the reconnection-attempt limit. -/
def sampleWsState : WebSocketServiceState :=
  { ws := some ReadyState.closedSock, reconnectAttempts := 10,
    isConnecting := false, shouldStayConnected := true, heartbeat := false,
    pendingRetries := [], socketsCreated := 3 }

/-! ## Theorems -/

/-- Claim C2: for every received `DualSimulationMetrics`, the comparison
follows the adaptive − fixed sign convention: the wait-time card is treated
as an improvement for the RL controller exactly when
`comparison.wait_time_diff < 0`, the queue card exactly when
`comparison.queue_diff < 0`, and the throughput card exactly when
`comparison.throughput_diff > 0`; under the spec-modelled ComparisonEngine
these conditions are exactly "adaptive strictly better than fixed" (for the
wait-time diff, whenever the zero-vehicle guard is not active). -/
theorem comparison_sign_convention :
    ∀ m : DualSimulationMetrics,
      ((waitTimeCard m).improvement = true ↔ m.comparison.wait_time_diff < 0)
    ∧ ((queueLengthCard m).improvement = true ↔ m.comparison.queue_diff < 0)
    ∧ ((throughputCard m).improvement = true ↔ 0 < m.comparison.throughput_diff)
    ∧ (∀ f r : SessionMetrics,
        ((compare f r).queue_diff < 0 ↔ r.queue_length < f.queue_length)
      ∧ (0 < (compare f r).throughput_diff ↔ f.arrived_vehicles < r.arrived_vehicles)
      ∧ (f.vehicle_count ≠ 0 →
          ((compare f r).wait_time_diff < 0 ↔ r.waiting_time < f.waiting_time))) := by
  intro m
  refine ⟨?_, ?_, ?_, ?_⟩
  · simp [waitTimeCard]
  · simp [queueLengthCard]
  · simp [throughputCard]
  · intro f r
    refine ⟨?_, ?_, fun h => ?_⟩
    · simp [compare, sub_neg]
    · simp [compare, sub_pos]
    · simp [compare, h, sub_neg]

/-- Witness for C2: the sign convention evaluated on a concrete busy/quiet
pair of sessions, with the nonzero-vehicle guard discharged concretely. -/
theorem comparison_sign_convention_witness :
    ((waitTimeCard sampleDualMetrics).improvement = true ↔
       sampleDualMetrics.comparison.wait_time_diff < 0)
  ∧ ((compare busySession sampleSession).wait_time_diff < 0 ↔
       sampleSession.waiting_time < busySession.waiting_time) :=
  ⟨(comparison_sign_convention sampleDualMetrics).1,
   ((comparison_sign_convention sampleDualMetrics).2.2.2 busySession sampleSession).2.2
     (by decide)⟩

/-- Claim C3: averages are guarded against division by zero — the `avg`
helper returns 0 on an empty data list for every key, and the spec-modelled
ComparisonEngine returns `wait_time_diff = 0` whenever the fixed session
reports zero active vehicles, rather than an undefined value. -/
theorem avg_empty_guard :
    (∀ key : String, avg [] key = 0)
  ∧ (∀ (data : List (String → Option ℚ)) (key : String),
       data.length = 0 → avg data key = 0)
  ∧ (∀ f r : SessionMetrics,
       f.vehicle_count = 0 → (compare f r).wait_time_diff = 0) := by
  refine ⟨fun key => rfl, fun data key h => ?_, fun f r h => ?_⟩
  · simp [avg, h]
  · simp [compare, h]

/-- Witness for C3: the guards evaluated on the empty list and on a fixed
session with zero vehicles. -/
theorem avg_empty_guard_witness :
    avg [] "wait" = 0
  ∧ (compare sampleSession busySession).wait_time_diff = 0 :=
  ⟨avg_empty_guard.1 "wait",
   avg_empty_guard.2.2 sampleSession busySession rfl⟩

/-- Counterexample to claim C4: an emergency-injection submission carries no
unique identifier at all — the request built by `injectDualEmergency` has
exactly the fields `vehicle_type` and `route`, so a client retry produces a
byte-identical request and no identifier-based duplicate rejection is
possible at this interface. -/
theorem emergency_no_identifier_counterexample :
    requestBodyKeys (injectDualEmergency "ambulance") = ["vehicle_type", "route"]
  ∧ (injectDualEmergency "ambulance").path = "/api/dual/emergency"
  ∧ injectDualEmergency "ambulance" = injectDualEmergency "ambulance" :=
  ⟨rfl, rfl, rfl⟩

/-- Claim C4 as amended: every emergency-injection submission posts exactly
`{vehicle_type, route: 'emergency_route'}` to `/api/dual/emergency`, with no
unique identifier field; submissions with the same vehicle type are
indistinguishable requests. -/
theorem emergency_request_shape :
    ∀ vehicleType : String,
      injectDualEmergency vehicleType =
        { path := "/api/dual/emergency",
          body := some [("vehicle_type", Json.str vehicleType),
                        ("route", Json.str "emergency_route")] }
    ∧ requestBodyKeys (injectDualEmergency vehicleType) = ["vehicle_type", "route"] :=
  fun _ => ⟨rfl, rfl⟩

/-- Claim C6: each external control command maps 1:1 onto its core operation
with its arguments passed through unchanged — `startDualSimulation` posts
exactly `{location, time_window, use_gui, seed}` to `/api/dual/start`
(defaulting `useGui = true`, `seed = 42`), `stopDualSimulation` posts to
`/api/dual/stop` with no parameters, and `applyDualWeather` posts exactly
`{condition}` to `/api/dual/weather`. -/
theorem dual_command_passthrough :
    ∀ (location : String) (tw : TimeWindow) (useGui : Bool) (seed : ℚ)
      (condition : String),
      startDualSimulation location tw useGui seed =
        { path := "/api/dual/start",
          body := some [("location", Json.str location),
                        ("time_window", timeWindowJson tw),
                        ("use_gui", Json.jbool useGui),
                        ("seed", Json.num seed)] }
    ∧ startDualSimulation location tw = startDualSimulation location tw true 42
    ∧ stopDualSimulation = { path := "/api/dual/stop", body := none }
    ∧ applyDualWeather condition =
        { path := "/api/dual/weather",
          body := some [("condition", Json.str condition)] } :=
  fun _ _ _ _ _ => ⟨rfl, rfl, rfl, rfl⟩

/-- Claim C7: the unsubscribe closure returned by `subscribe` is idempotent —
a second (or any later) call leaves the handler registry in exactly the state
after the first call — and every handler other than the unsubscribed one
still receives every subsequently published message. -/
theorem unsubscribe_idempotent :
    ∀ (s s' : WsHandlers) (handler : ℕ),
      (subscribe s handler).2 ((subscribe s handler).2 s') = (subscribe s handler).2 s'
    ∧ (∀ h2 : ℕ, h2 ≠ handler →
        (h2 ∈ publishRecipients ((subscribe s handler).2 s') ↔
           h2 ∈ publishRecipients s')) := by
  intro s s' handler
  constructor
  · simp [subscribe, Finset.erase_idem]
  · intro h2 hne
    simp [subscribe, publishRecipients, Finset.mem_erase, hne]

/-- Witness for C7: idempotence and delivery preservation evaluated on a
concrete two-handler registry. -/
theorem unsubscribe_idempotent_witness :
    (subscribe ⟨{1, 2}⟩ 1).2 ((subscribe ⟨{1, 2}⟩ 1).2 ⟨{1, 2}⟩) =
      (subscribe ⟨{1, 2}⟩ 1).2 ⟨{1, 2}⟩
  ∧ (2 ∈ publishRecipients ((subscribe ⟨{1, 2}⟩ 1).2 ⟨{1, 2}⟩) ↔
       2 ∈ publishRecipients ⟨{1, 2}⟩) :=
  ⟨(unsubscribe_idempotent ⟨{1, 2}⟩ ⟨{1, 2}⟩ 1).1,
   (unsubscribe_idempotent ⟨{1, 2}⟩ ⟨{1, 2}⟩ 1).2 2 (by decide)⟩

/-- Claim C8: the controller mode of a running session is never reconfigured
live — while a run is active, switching the mode stops the running
simulation (emitting the stop command, never a start command), the new mode
is recorded only for a subsequent explicit start, and the control-dashboard
mode buttons are disabled while `isRunning` holds. -/
theorem switch_mode_stops_run :
    ∀ s : DashboardState, s.isRunning = true →
      (handleSwitchMode s).1.isRunning = false
    ∧ FrontendAction.apiStopSimulation ∈ (handleSwitchMode s).2
    ∧ (handleSwitchMode s).1.currentMode = toggleMode s.currentMode
    ∧ (∀ m : Mode, FrontendAction.apiStartSimulation m ∉ (handleSwitchMode s).2)
    ∧ modeButtonDisabled s.isRunning = true := by
  intro s h
  refine ⟨?_, ?_, ?_, fun m => ?_, ?_⟩ <;>
    simp [handleSwitchMode, handleStop, modeButtonDisabled, h]

/-- Witness for C8: mode switching evaluated on a concrete running dashboard
state. -/
theorem switch_mode_stops_run_witness :
    (handleSwitchMode ⟨true, Mode.fixedTime, false⟩).1.isRunning = false
  ∧ FrontendAction.apiStopSimulation ∈ (handleSwitchMode ⟨true, Mode.fixedTime, false⟩).2
  ∧ (handleSwitchMode ⟨true, Mode.fixedTime, false⟩).1.currentMode =
      toggleMode Mode.fixedTime
  ∧ (∀ m : Mode,
      FrontendAction.apiStartSimulation m ∉ (handleSwitchMode ⟨true, Mode.fixedTime, false⟩).2)
  ∧ modeButtonDisabled true = true :=
  switch_mode_stops_run ⟨true, Mode.fixedTime, false⟩ rfl

/-- Feeding a stream of values through the push-then-shift bounded append,
starting empty, retains exactly the most recent `cap` values in arrival
order. -/
lemma foldl_boundedAppend {α β : Type} (cap : ℕ) (f : β → α) (ms : List β) :
    ms.foldl (fun b m => boundedAppend cap b (f m)) [] =
      (ms.map f).drop (ms.length - cap) := by
  induction ms using List.reverseRecOn with
  | nil => simp
  | append_singleton t x ih =>
    rw [List.foldl_append, List.foldl_cons, List.foldl_nil, ih]
    have hlen : ((t.map f).drop (t.length - cap)).length = t.length - (t.length - cap) := by
      simp
    have hd : (t.map f).drop (t.length - cap) ++ [f x] =
        (t.map f ++ [f x]).drop (t.length - cap) := by
      rw [List.drop_append_of_le_length]
      simp
    by_cases hc : t.length < cap
    · have h0 : t.length - cap = 0 := by omega
      have h1 : (t ++ [x]).length - cap = 0 := by simp; omega
      simp only [boundedAppend, h0, List.drop_zero, List.map_append, List.map_cons,
        List.map_nil, h1]
      rw [if_neg]
      simp
      omega
    · have hcap : ((t.map f).drop (t.length - cap)).length = cap := by
        rw [hlen]; omega
      simp only [boundedAppend]
      rw [if_pos]
      · rw [hd, List.tail_drop, List.map_append, List.map_cons, List.map_nil]
        congr 1
        simp
        omega
      · simp [hcap]

/-- Feeding a stream of values through append-then-`slice(-cap)`, starting
empty, retains exactly the most recent `cap` values in arrival order. -/
lemma foldl_sliceAppend {α β : Type} (cap : ℕ) (f : β → α) (ms : List β) :
    ms.foldl (fun b m => sliceLast cap (b ++ [f m])) [] =
      (ms.map f).drop (ms.length - cap) := by
  induction ms using List.reverseRecOn with
  | nil => simp
  | append_singleton t x ih =>
    rw [List.foldl_append, List.foldl_cons, List.foldl_nil, ih]
    have hd : (t.map f).drop (t.length - cap) ++ [f x] =
        (t.map f ++ [f x]).drop (t.length - cap) := by
      rw [List.drop_append_of_le_length]
      simp
    rw [sliceLast, hd, List.drop_drop, List.map_append, List.map_cons, List.map_nil]
    congr 1
    simp
    omega

/-- Claim C5: every per-observer snapshot buffer is bounded (100 entries for
the dashboard history, 50 for the live comparison chart, 100 for the
control-dashboard chart) and, for every sequence of received snapshots, the
buffer after processing the whole sequence holds exactly the most recent
entries in arrival order — when full, the oldest entry is dropped and the
newest received snapshot is always retained. -/
theorem snapshot_buffers_bounded :
    ∀ (ms : List SimulationMetrics) (baselineValue : ℚ),
      ms.foldl pushHistory [] = (ms.map toHistoryPoint).drop (ms.length - 100)
    ∧ (ms.foldl pushHistory []).length ≤ 100
    ∧ ms.foldl (fun d m => pushChart d baselineValue m) [] =
        (ms.map (toChartPoint baselineValue)).drop (ms.length - 50)
    ∧ (ms.foldl (fun d m => pushChart d baselineValue m) []).length ≤ 50
    ∧ ms.foldl pushChartData [] = (ms.map toChartData).drop (ms.length - 100)
    ∧ (ms.foldl pushChartData []).length ≤ 100 := by
  intro ms baselineValue
  have h1 : ms.foldl pushHistory [] =
      (ms.map toHistoryPoint).drop (ms.length - 100) :=
    foldl_boundedAppend 100 toHistoryPoint ms
  have h2 : ms.foldl (fun d m => pushChart d baselineValue m) [] =
      (ms.map (toChartPoint baselineValue)).drop (ms.length - 50) :=
    foldl_boundedAppend 50 (toChartPoint baselineValue) ms
  have h3 : ms.foldl pushChartData [] =
      (ms.map toChartData).drop (ms.length - 100) :=
    foldl_sliceAppend 100 toChartData ms
  refine ⟨h1, ?_, h2, ?_, h3, ?_⟩
  · rw [h1]; simp; omega
  · rw [h2]; simp; omega
  · rw [h3]; simp; omega

/-- `connect` always leaves the attempt counter at zero. -/
lemma connect_reconnectAttempts (s : WebSocketServiceState) :
    (connect s).reconnectAttempts = 0 := by
  simp only [connect]
  split
  · rfl
  · split <;> rfl

/-- `attemptReconnect` preserves the attempt bound. -/
lemma attemptReconnect_le (s : WebSocketServiceState)
    (h : s.reconnectAttempts ≤ maxReconnectAttempts) :
    (attemptReconnect s).reconnectAttempts ≤ maxReconnectAttempts := by
  unfold attemptReconnect
  split
  · exact h
  · split
    · exact h
    · next h2 =>
      show s.reconnectAttempts + 1 ≤ maxReconnectAttempts
      omega

/-- Claim C9: the reconnection counter is bounded — `reconnectAttempts`
never exceeds `maxReconnectAttempts` (10) under any event; entered at the
limit, `attemptReconnect` does not increment the counter but schedules the
10-second retry, which resets the counter to 0 when it reconnects; and both
`attemptReconnect` and the scheduled retries are no-ops unless
`shouldStayConnected` holds. -/
theorem reconnect_attempts_bounded :
    ∀ (s : WebSocketServiceState) (e : WsEvent),
      s.reconnectAttempts ≤ maxReconnectAttempts →
      (stepWs s e).reconnectAttempts ≤ maxReconnectAttempts
    ∧ (maxReconnectAttempts ≤ s.reconnectAttempts →
         (attemptReconnect s).reconnectAttempts = s.reconnectAttempts
       ∧ (s.shouldStayConnected = true →
           (attemptReconnect s).pendingRetries =
             s.pendingRetries ++ [RetryKind.resetRetry]))
    ∧ (s.shouldStayConnected = false →
         attemptReconnect s = s
       ∧ fireRetry RetryKind.delayRetry s = s
       ∧ fireRetry RetryKind.resetRetry s = s)
    ∧ (s.shouldStayConnected = true →
         (fireRetry RetryKind.resetRetry s).reconnectAttempts = 0) := by
  intro s e hle
  refine ⟨?_, fun hmax => ⟨?_, fun hstay => ?_⟩, fun hstay => ?_, fun hstay => ?_⟩
  · cases e with
    | connectCall => rw [stepWs, connect_reconnectAttempts]; omega
    | disconnectCall => simp [stepWs, disconnect]
    | sockOpen => simp [stepWs, onopen]
    | sockError => exact hle
    | sockClose =>
      simp only [stepWs, onclose]
      split
      · exact attemptReconnect_le _ hle
      · exact hle
    | timerFires k =>
      cases k <;> simp only [stepWs, fireRetry] <;> split <;>
        first
          | (rw [connect_reconnectAttempts]; omega)
          | exact hle
  · rw [attemptReconnect]
    by_cases hstay2 : s.shouldStayConnected = false
    · rw [if_pos hstay2]
    · rw [if_neg hstay2, if_pos hmax]
  · simp [attemptReconnect, hstay, hmax]
  · simp [attemptReconnect, fireRetry, hstay]
  · simp only [fireRetry, hstay, if_true]
    rw [connect_reconnectAttempts]

/-- Witness for C9: the bound and the limit behaviour evaluated on a
concrete state sitting at the attempt limit, under a socket-close event. -/
theorem reconnect_attempts_bounded_witness :
    (stepWs sampleWsState WsEvent.sockClose).reconnectAttempts ≤ maxReconnectAttempts
  ∧ (maxReconnectAttempts ≤ sampleWsState.reconnectAttempts →
       (attemptReconnect sampleWsState).reconnectAttempts =
         sampleWsState.reconnectAttempts
     ∧ (sampleWsState.shouldStayConnected = true →
         (attemptReconnect sampleWsState).pendingRetries =
           sampleWsState.pendingRetries ++ [RetryKind.resetRetry]))
  ∧ (sampleWsState.shouldStayConnected = false →
       attemptReconnect sampleWsState = sampleWsState
     ∧ fireRetry RetryKind.delayRetry sampleWsState = sampleWsState
     ∧ fireRetry RetryKind.resetRetry sampleWsState = sampleWsState)
  ∧ (sampleWsState.shouldStayConnected = true →
       (fireRetry RetryKind.resetRetry sampleWsState).reconnectAttempts = 0) :=
  reconnect_attempts_bounded sampleWsState WsEvent.sockClose (by decide)

/-- After `disconnect`, any event other than an explicit `connect()` call
preserves the disconnected configuration and creates no socket. -/
lemma stepWs_preserves_disconnected (s : WebSocketServiceState) (e : WsEvent)
    (hstay : s.shouldStayConnected = false) (hws : s.ws = none)
    (he : e ≠ WsEvent.connectCall) :
    (stepWs s e).shouldStayConnected = false
  ∧ (stepWs s e).ws = none
  ∧ (stepWs s e).socketsCreated = s.socketsCreated := by
  cases e with
  | connectCall => exact absurd rfl he
  | disconnectCall => simp [stepWs, disconnect, hstay, hws]
  | sockOpen => simp [stepWs, onopen, hstay, hws]
  | sockError => simp [stepWs, onerror, hstay, hws]
  | sockClose => simp [stepWs, onclose, hstay, hws]
  | timerFires k => cases k <;> simp [stepWs, fireRetry, hstay, hws]

/-- The disconnected configuration is preserved by any sequence of
non-`connect` events, with no socket ever created. -/
lemma foldl_stepWs_disconnected (es : List WsEvent) :
    ∀ s : WebSocketServiceState,
      s.shouldStayConnected = false → s.ws = none →
      (∀ e ∈ es, e ≠ WsEvent.connectCall) →
      (es.foldl stepWs s).shouldStayConnected = false
    ∧ (es.foldl stepWs s).ws = none
    ∧ (es.foldl stepWs s).socketsCreated = s.socketsCreated := by
  induction es with
  | nil => exact fun s h1 h2 _ => ⟨h1, h2, rfl⟩
  | cons e t ih =>
    intro s h1 h2 hall
    have he : e ≠ WsEvent.connectCall := hall e (List.mem_cons_self e t)
    obtain ⟨p1, p2, p3⟩ := stepWs_preserves_disconnected s e h1 h2 he
    have ht := ih (stepWs s e) p1 p2 (fun e' he' => hall e' (List.mem_cons_of_mem e he'))
    exact ⟨ht.1, ht.2.1, ht.2.2.trans p3⟩

/-- Claim C10: after `disconnect()` the service never initiates a new
connection — under any sequence of socket callbacks and retry-timer firings
containing no explicit `connect()` call, no socket is ever created,
`shouldStayConnected` stays false, the socket reference stays null, and
`isConnected()` returns false throughout (in particular immediately after
`disconnect()`). -/
theorem disconnect_never_reconnects :
    ∀ (s : WebSocketServiceState) (es : List WsEvent),
      (∀ e ∈ es, e ≠ WsEvent.connectCall) →
      (es.foldl stepWs (disconnect s)).socketsCreated = s.socketsCreated
    ∧ (es.foldl stepWs (disconnect s)).ws = none
    ∧ (es.foldl stepWs (disconnect s)).shouldStayConnected = false
    ∧ isConnected (es.foldl stepWs (disconnect s)) = false
    ∧ isConnected (disconnect s) = false := by
  intro s es hall
  obtain ⟨h1, h2, h3⟩ := foldl_stepWs_disconnected es (disconnect s) rfl rfl hall
  refine ⟨h3, h2, h1, ?_, ?_⟩
  · simp [isConnected, h2]
  · simp [isConnected, disconnect]

/-- Witness for C10: a disconnect followed by a stray socket-close and a
stale retry timer, on a concrete state. -/
theorem disconnect_never_reconnects_witness :
    ([WsEvent.sockClose, WsEvent.timerFires RetryKind.delayRetry].foldl stepWs
       (disconnect sampleWsState)).socketsCreated = sampleWsState.socketsCreated
  ∧ ([WsEvent.sockClose, WsEvent.timerFires RetryKind.delayRetry].foldl stepWs
       (disconnect sampleWsState)).ws = none
  ∧ ([WsEvent.sockClose, WsEvent.timerFires RetryKind.delayRetry].foldl stepWs
       (disconnect sampleWsState)).shouldStayConnected = false
  ∧ isConnected ([WsEvent.sockClose, WsEvent.timerFires RetryKind.delayRetry].foldl stepWs
       (disconnect sampleWsState)) = false
  ∧ isConnected (disconnect sampleWsState) = false :=
  disconnect_never_reconnects sampleWsState
    [WsEvent.sockClose, WsEvent.timerFires RetryKind.delayRetry] (by decide)

/-- Claim C1: lockstep invariant — starting the spec-modelled DualController
from two sessions at the same simulated time, every published merged
snapshot satisfies `fixed.time = rl.time`; after `n` ticks both sessions
have advanced exactly `n` simulated seconds, and exactly one snapshot was
published per completed tick (none from partial data). -/
theorem dual_lockstep_invariant :
    ∀ (engineFixed engineRL : SessionMetrics → SessionMetrics)
      (f0 r0 : SessionMetrics) (n : ℕ),
      f0.time = r0.time →
      (∀ snap ∈ (runTicks engineFixed engineRL (initialDual f0 r0) n).published,
         snap.fixed.time = snap.rl.time)
    ∧ (runTicks engineFixed engineRL (initialDual f0 r0) n).fixedSession.time =
        f0.time + n
    ∧ (runTicks engineFixed engineRL (initialDual f0 r0) n).rlSession.time =
        r0.time + n
    ∧ (runTicks engineFixed engineRL (initialDual f0 r0) n).published.length = n
    ∧ (runTicks engineFixed engineRL (initialDual f0 r0) n).tickIndex = n := by
  intro engineFixed engineRL f0 r0 n h
  induction n with
  | zero =>
    refine ⟨?_, by simp [runTicks, initialDual], by simp [runTicks, initialDual],
            rfl, rfl⟩
    intro snap hsnap
    simp [runTicks, initialDual] at hsnap
  | succ n ih =>
    obtain ⟨ih1, ih2, ih3, ih4, ih5⟩ := ih
    refine ⟨?_, ?_, ?_, ?_, ?_⟩
    · intro snap hsnap
      simp only [runTicks, tick, List.mem_append, List.mem_singleton] at hsnap
      rcases hsnap with hold | hnew
      · exact ih1 snap hold
      · subst hnew
        simp only [stepSession, ih2, ih3, h]
    · simp only [runTicks, tick, stepSession, ih2]
      push_cast
      ring
    · simp only [runTicks, tick, stepSession, ih3]
      push_cast
      ring
    · simp [runTicks, tick, ih4]
    · simp [runTicks, tick, ih5]

/-- Witness for C1: three lockstep ticks with identity engine responses from
a concrete quiescent pair of sessions. -/
theorem dual_lockstep_invariant_witness :
    (∀ snap ∈ (runTicks id id (initialDual sampleSession sampleSession) 3).published,
       snap.fixed.time = snap.rl.time)
  ∧ (runTicks id id (initialDual sampleSession sampleSession) 3).fixedSession.time =
      sampleSession.time + 3
  ∧ (runTicks id id (initialDual sampleSession sampleSession) 3).rlSession.time =
      sampleSession.time + 3
  ∧ (runTicks id id (initialDual sampleSession sampleSession) 3).published.length = 3
  ∧ (runTicks id id (initialDual sampleSession sampleSession) 3).tickIndex = 3 := by
  have h := dual_lockstep_invariant id id sampleSession sampleSession 3 rfl
  exact_mod_cast h

end RSO
